import Mathlib

/-!
Verification development for the BrainSAIT identity-on-demand service.

The definitions below are a shallow embedding of the TypeScript sources:

* `src/services/security.ts` — the risk scorer
  (`validateVerificationRequest`, `performAdvancedFraudChecks`,
  the headless/automation detectors and `getRiskReason`);
* `functions/api/create-verification-session.ts` — the session-creation
  endpoint (`onRequestPost`, `validateSaudiFacility`, `validateSudanWilaya`
  and the session-OID template);
* `src/services/stripe.ts` — the client service
  (`generateOID`, `createVerificationSession`, `validateNPHIESContext`,
  `syncWithNeuralSystem`).

Browser state (`navigator`, `window`, `sessionStorage`), clock reads
(`Date.now()`) and every network/storage interaction are passed in
explicitly as data, so each embedded operation is a pure function of its
inputs; JavaScript exceptions are modelled with `Except`/explicit error
branches, and the effects the endpoint performs are recorded as an event
trace.
-/

namespace BrainSAIT

/-! ## Risk scorer (src/services/security.ts) -/

/-- `SecurityConfig` of security.ts; the constructor fixes
`maxVerificationAttempts := 3`. The CSP/real-time flags play no part in
`validateVerificationRequest` and are omitted. -/
structure SecurityConfig where
  enableAdvancedFraudDetection : Bool
  maxVerificationAttempts : Nat
deriving Repr, DecidableEq

/-- `SecurityMetrics` of security.ts (per-session entry of the
`securityMetrics` map); the three trailing fields are optional in the
interface. -/
structure SecurityMetrics where
  verificationAttempts : Nat
  lastAttemptTimestamp : Nat
  suspiciousActivityScore : Nat
  deviceFingerprint : Option String
  ipAddress : Option String
  userAgent : Option String
deriving Repr, DecidableEq

/-- The browser facts read by `detectHeadlessBrowser` and
`detectAutomationTools` (`navigator.webdriver`, the `window` keys, plugin
and language list lengths, the user-agent regex). -/
structure BrowserEnv where
  webdriver : Bool
  phantomJSInWindow : Bool
  phantomKeyInWindow : Bool
  seleniumKeyInWindow : Bool
  nightmareKeyInWindow : Bool
  pluginsLength : Nat
  languagesLength : Nat
  userAgentHeadlessChrome : Bool
deriving Repr, DecidableEq

/-- `detectHeadlessBrowser` of security.ts. -/
def detectHeadlessBrowser (b : BrowserEnv) : Bool :=
  b.webdriver || b.phantomJSInWindow || b.phantomKeyInWindow ||
    b.seleniumKeyInWindow || b.nightmareKeyInWindow

/-- `detectAutomationTools` of security.ts. -/
def detectAutomationTools (b : BrowserEnv) : Bool :=
  (b.pluginsLength == 0) || (b.languagesLength == 0) || b.userAgentHeadlessChrome

/-- `detectLocationMismatch` of security.ts: a stub that always reports no
mismatch. -/
def detectLocationMismatch (_countryCode : String) (_ipAddress : Option String) : Bool :=
  false

/-- `detectVPNUsage` of security.ts: a stub that always reports no VPN. -/
def detectVPNUsage (_ipAddress : Option String) : Bool :=
  false

/-- The `userContext` argument of `validateVerificationRequest`; only its
`countryCode` field is read (truthiness plus the geo check). -/
structure UserContext where
  countryCode : Option String
deriving Repr, DecidableEq

/-- `performAdvancedFraudChecks` of security.ts: +60 headless, +50
automation tooling, +20 geo mismatch, +25 VPN, and the aggregate is capped
at 100 by the final `Math.min`. -/
def performAdvancedFraudChecks (b : BrowserEnv) (userContext : UserContext)
    (metrics : SecurityMetrics) : Nat :=
  let fraudScore := 0
  let fraudScore := if detectHeadlessBrowser b then fraudScore + 60 else fraudScore
  let fraudScore := if detectAutomationTools b then fraudScore + 50 else fraudScore
  let fraudScore :=
    if (match userContext.countryCode with
        | some cc => (cc != "") && detectLocationMismatch cc metrics.ipAddress
        | none => false) then fraudScore + 20 else fraudScore
  let fraudScore := if detectVPNUsage metrics.ipAddress then fraudScore + 25 else fraudScore
  min fraudScore 100

/-- `getRiskReason` of security.ts. -/
def getRiskReason (riskScore : Nat) : String :=
  if riskScore ≥ 90 then "High fraud risk detected"
  else if riskScore ≥ 70 then "Suspicious activity patterns"
  else if riskScore ≥ 50 then "Multiple failed attempts"
  else "Security threshold exceeded"

/-- The result object of `validateVerificationRequest`. -/
structure ValidationResult where
  isValid : Bool
  riskScore : Nat
  blockedReason : Option String
deriving Repr, DecidableEq

/-- `validateVerificationRequest` of security.ts for one session key.
`stored` is the entry of the `securityMetrics` map for that key (`none`
when absent), `deviceFingerprint` the value read from session storage,
`currentTime` the `Date.now()` read. Returns the result together with the
metrics written back into the map. The source increments the attempt
count and overwrites `lastAttemptTimestamp` with `currentTime` (lines
150–151) before the rapid-attempt comparison on line 162. -/
def validateVerificationRequest (cfg : SecurityConfig) (b : BrowserEnv)
    (stored : Option SecurityMetrics) (deviceFingerprint : String)
    (ipAddress userAgent : String) (currentTime : Nat) (userContext : UserContext) :
    ValidationResult × SecurityMetrics :=
  let metrics := stored.getD
    { verificationAttempts := 0
      lastAttemptTimestamp := 0
      suspiciousActivityScore := 0
      deviceFingerprint := some deviceFingerprint
      ipAddress := some ipAddress
      userAgent := some userAgent }
  let metrics := { metrics with
    verificationAttempts := metrics.verificationAttempts + 1
    lastAttemptTimestamp := currentTime }
  let riskScore := 0
  let riskScore :=
    if metrics.verificationAttempts > cfg.maxVerificationAttempts
    then riskScore + 50 else riskScore
  let riskScore :=
    if currentTime - metrics.lastAttemptTimestamp < 5000
    then riskScore + 30 else riskScore
  let riskScore :=
    if metrics.deviceFingerprint ≠ some deviceFingerprint
    then riskScore + 40 else riskScore
  let riskScore :=
    if cfg.enableAdvancedFraudDetection
    then riskScore + performAdvancedFraudChecks b userContext metrics
    else riskScore
  let metrics := { metrics with suspiciousActivityScore := riskScore }
  let isValid := riskScore < 70
  ({ isValid := isValid
     riskScore := riskScore
     blockedReason := if isValid then none else some (getRiskReason riskScore) },
   metrics)

/-- A sequence of `validateVerificationRequest` calls against one session
key: each call reads the metrics entry the previous call wrote (the
`securityMetrics.set` on line 178). Attempts are given as
(`Date.now()` read, fingerprint) pairs; returns the results in order and
the final stored metrics. -/
def runValidationSequence (cfg : SecurityConfig) (b : BrowserEnv)
    (userContext : UserContext) (ipAddress userAgent : String) :
    List (Nat × String) → Option SecurityMetrics →
      List ValidationResult × Option SecurityMetrics
  | [], stored => ([], stored)
  | (t, fp) :: rest, stored =>
    let step := validateVerificationRequest cfg b stored fp ipAddress userAgent t userContext
    let tail := runValidationSequence cfg b userContext ipAddress userAgent rest (some step.2)
    (step.1 :: tail.1, tail.2)

/-! ## Session-creation endpoint (functions/api/create-verification-session.ts) -/

/-- `healthcare_context` of the request body. -/
structure HealthcareContext where
  nphiesId : Option String
  facilityCode : Option String
  practitionerId : Option String
deriving Repr, DecidableEq

/-- `national_context` of the request body. -/
structure NationalContext where
  sudanNationalId : Option String
  ministryCode : Option String
  wilayaCode : Option String
deriving Repr, DecidableEq

/-- The parsed `VerificationRequest` body of the endpoint. `metadata` is a
string map (`none` when the field is absent). -/
structure VerificationRequest where
  type : String
  return_url : String
  metadata : Option (List (String × String))
  country_code : Option String
  healthcare_context : Option HealthcareContext
  national_context : Option NationalContext
deriving Repr, DecidableEq

/-- Outcome of one D1 `SELECT ... first()` against a regional reference
table: a row was found, no row was found, or the query threw
(network/timeout). -/
inductive RegionalLookup
  | found
  | notFound
  | failure
deriving Repr, DecidableEq

/-- Outcome of the `fetch` to the provider (Stripe): an ok response
carrying the provider session id, a non-ok HTTP response, or a thrown
network error. -/
inductive StripeOutcome
  | ok (sessionId : String)
  | httpError (status : Nat) (body : String)
  | thrown (msg : String)
deriving Repr, DecidableEq

/-- The bindings and I/O oracles of one endpoint invocation: the
`BRAINSAIT_OID_ROOT` variable, the two regional reference tables (as
lookup outcomes per code), the provider outcome, and whether each write
(D1 insert, SESSIONS KV put, NEURAL_CONTEXT KV put) succeeds or throws. -/
structure EndpointEnv where
  oidRoot : String
  facilityLookup : String → RegionalLookup
  wilayaLookup : String → RegionalLookup
  stripeOutcome : StripeOutcome
  dbInsertOk : Bool
  kvPutOk : Bool
  neuralPutOk : Bool

/-- `validateSaudiFacility` of the endpoint: the guard
`if (!facilityCode) return true` passes when the code is absent or — JS
falsiness — the empty string; otherwise a found active+certified row
passes, no row fails, and a thrown query is an exception
(`Except.error`). -/
def validateSaudiFacility (lookup : String → RegionalLookup)
    (facilityCode : Option String) : Except String Bool :=
  match facilityCode with
  | none => .ok true
  | some code =>
    if code == "" then .ok true
    else
      match lookup code with
      | .found => .ok true
      | .notFound => .ok false
      | .failure => .error "D1 query failed"

/-- `validateSudanWilaya` of the endpoint: same shape over
`sudan_wilayas`, including the falsy guard `if (!wilayaCode) return
true` (absent or empty-string code passes). -/
def validateSudanWilaya (lookup : String → RegionalLookup)
    (wilayaCode : Option String) : Except String Bool :=
  match wilayaCode with
  | none => .ok true
  | some code =>
    if code == "" then .ok true
    else
      match lookup code with
      | .found => .ok true
      | .notFound => .ok false
      | .failure => .error "D1 query failed"

/-- The country arc of the session OID (line 41 of the endpoint):
`SA → 682`, `SD → 729`, anything else → `840`. -/
def countryOid (country_code : Option String) : String :=
  if country_code == some "SA" then "682"
  else if country_code == some "SD" then "729"
  else "840"

/-- The session-OID template of line 42:
`` `${env.BRAINSAIT_OID_ROOT}.1.${countryOid}.${timestamp}` ``. -/
def sessionOID (oidRoot : String) (country_code : Option String)
    (timestamp : Nat) : String :=
  oidRoot ++ ".1." ++ countryOid country_code ++ "." ++ Nat.repr timestamp

/-- The externally visible effects of one endpoint invocation, in program
order: the provider `fetch`, the D1 insert being issued, the D1 insert
returning successfully, the SESSIONS KV put, the NEURAL_CONTEXT KV put. -/
inductive Ev
  | stripeCall
  | dbInsert
  | dbInsertSuccess
  | kvPut
  | neuralPut
deriving Repr, DecidableEq

/-- The endpoint's HTTP response, as far as the claims observe it: the
status, the `error` string of an error body, and the `brainsait_oid`
field of a success body. -/
structure ApiResponse where
  status : Nat
  error : Option String
  brainsaitOid : Option String
deriving Repr, DecidableEq

/-- Value of `body.metadata?.[key]`. -/
def metadataLookup (metadata : Option (List (String × String)))
    (key : String) : Option String :=
  match metadata with
  | none => none
  | some entries => (entries.find? (fun p => p.1 == key)).map (·.2)

/-- The 500 response produced by the endpoint's catch-all handler. -/
def internalErrorResponse : ApiResponse :=
  { status := 500, error := some "Internal server error", brainsaitOid := none }

/-- Lines 45–53 of the endpoint: the Saudi facility validation, run only
for `country_code = SA` with a healthcare context present. -/
def saGate (env : EndpointEnv) (body : VerificationRequest) : Except String Bool :=
  if body.country_code == some "SA" then
    match body.healthcare_context with
    | some hc => validateSaudiFacility env.facilityLookup hc.facilityCode
    | none => .ok true
  else .ok true

/-- Lines 55–63 of the endpoint: the Sudan wilaya validation, run only
for `country_code = SD` with a national context present. -/
def sdGate (env : EndpointEnv) (body : VerificationRequest) : Except String Bool :=
  if body.country_code == some "SD" then
    match body.national_context with
    | some nc => validateSudanWilaya env.wilayaLookup nc.wilayaCode
    | none => .ok true
  else .ok true

/-- `onRequestPost` of functions/api/create-verification-session.ts, as a
function of the request body, the `Date.now()` read and the environment
oracles; returns the response and the trace of effects in program order.
Control flow follows the source: regional validation (400 on an invalid
code), provider call (its status echoed on a non-ok response), D1 insert,
SESSIONS KV put, optional NEURAL_CONTEXT put, 200; any thrown step falls
to the catch-all 500. -/
def onRequestPost (env : EndpointEnv) (body : VerificationRequest)
    (timestamp : Nat) : ApiResponse × List Ev :=
  let oid := sessionOID env.oidRoot body.country_code timestamp
  match saGate env body with
  | .error _ => (internalErrorResponse, [])
  | .ok false =>
    ({ status := 400, error := some "Invalid Saudi healthcare facility",
       brainsaitOid := none }, [])
  | .ok true =>
    match sdGate env body with
    | .error _ => (internalErrorResponse, [])
    | .ok false =>
      ({ status := 400, error := some "Invalid Sudan wilaya",
         brainsaitOid := none }, [])
    | .ok true =>
      match env.stripeOutcome with
      | .thrown _ => (internalErrorResponse, [.stripeCall])
      | .httpError st _ =>
        ({ status := st, error := some "Stripe API error", brainsaitOid := none },
         [.stripeCall])
      | .ok _stripeId =>
        if env.dbInsertOk then
          if env.kvPutOk then
            if metadataLookup body.metadata "neural_integration" == some "enabled" then
              if env.neuralPutOk then
                ({ status := 200, error := none, brainsaitOid := some oid },
                 [.stripeCall, .dbInsert, .dbInsertSuccess, .kvPut, .neuralPut])
              else
                (internalErrorResponse,
                 [.stripeCall, .dbInsert, .dbInsertSuccess, .kvPut, .neuralPut])
            else
              ({ status := 200, error := none, brainsaitOid := some oid },
               [.stripeCall, .dbInsert, .dbInsertSuccess, .kvPut])
          else
            (internalErrorResponse, [.stripeCall, .dbInsert, .dbInsertSuccess, .kvPut])
        else (internalErrorResponse, [.stripeCall, .dbInsert])

/-! ## Client service (src/services/stripe.ts, class StripeIdentityService) -/

/-- Outcome of a `fetch` to a regional registry endpoint. -/
inductive FetchOutcome
  | ok
  | httpError (statusText : String)
  | thrown (msg : String)
deriving Repr, DecidableEq

/-- What a caller can observe of a best-effort call: whether an exception
escaped to the caller, and whether the catch block logged a warning. -/
structure BestEffortOutcome where
  threw : Bool
  warningLogged : Bool
deriving Repr, DecidableEq

/-- `validateNPHIESContext` of stripe.ts: skipped when no endpoint or no
`nphiesId` is configured; otherwise a non-ok or thrown `fetch` is caught
by the surrounding `try`/`catch`, which logs `console.warn` and returns —
no error ever escapes to `createVerificationSession`. -/
def validateNPHIESContext (nphiesEndpoint : Option String)
    (nphiesId : Option String) (fetchOutcome : FetchOutcome) : BestEffortOutcome :=
  match nphiesEndpoint, nphiesId with
  | some _, some _ =>
    match fetchOutcome with
    | .ok => { threw := false, warningLogged := false }
    | .httpError _ => { threw := false, warningLogged := true }
    | .thrown _ => { threw := false, warningLogged := true }
  | _, _ => { threw := false, warningLogged := false }

/-- `validateSudanNIDContext` of stripe.ts: same `try`/`catch`/warn shape
over the Sudan NID endpoint. -/
def validateSudanNIDContext (sudanNidEndpoint : Option String)
    (sudanNationalId : Option String) (fetchOutcome : FetchOutcome) : BestEffortOutcome :=
  match sudanNidEndpoint, sudanNationalId with
  | some _, some _ =>
    match fetchOutcome with
    | .ok => { threw := false, warningLogged := false }
    | .httpError _ => { threw := false, warningLogged := true }
    | .thrown _ => { threw := false, warningLogged := true }
  | _, _ => { threw := false, warningLogged := false }

/-- Outcome of the neural-sync `fetch`. -/
inductive NeuralSyncOutcome
  | delivered
  | failed (msg : String)
deriving Repr, DecidableEq

/-- `syncWithNeuralSystem` of stripe.ts: the `fetch` sits in a
`try`/`catch` whose handler only logs `console.warn`, so the call never
throws to its caller. -/
def syncWithNeuralSystem (outcome : NeuralSyncOutcome) : BestEffortOutcome :=
  match outcome with
  | .delivered => { threw := false, warningLogged := false }
  | .failed _ => { threw := false, warningLogged := true }

/-- `generateOID` of stripe.ts (`this.oidPrefix = "1.3.6.1.4.1.61026"`);
the client-side OID: type arc (verification 1, healthcare 2, national 3),
country arc (`SA → 682`, `SD → 729`, else `000`), then the `Date.now()`
read. -/
def generateOID (type : String) (countryCode : Option String)
    (timestamp : Nat) : String :=
  let typeId := if type == "verification" then "1"
    else if type == "healthcare" then "2" else "3"
  let country := if countryCode == some "SA" then "682"
    else if countryCode == some "SD" then "729" else "000"
  "1.3.6.1.4.1.61026" ++ "." ++ typeId ++ "." ++ country ++ "." ++ Nat.repr timestamp

/-- Outcome of the client's `fetch('/api/create-verification-session')`. -/
inductive ApiFetchOutcome
  | ok (sessionId : String)
  | httpError (statusText : String)
  | thrown (msg : String)
deriving Repr, DecidableEq

/-- Configuration and I/O oracles of one `createVerificationSession`
call: the three configured endpoints, the outcomes of the regional
validation fetches, of the API fetch and of the neural-sync fetch. -/
structure ClientEnv where
  neuralSyncEndpoint : Option String
  nphiesEndpoint : Option String
  sudanNidEndpoint : Option String
  nphiesFetch : FetchOutcome
  sudanFetch : FetchOutcome
  apiFetch : ApiFetchOutcome
  neuralSync : NeuralSyncOutcome
deriving Repr, DecidableEq

/-- The value `createVerificationSession` resolves with:
`{ ...session, oid: sessionOID }`. -/
structure CreatedSession where
  id : String
  oid : String
deriving Repr, DecidableEq

/-- `createVerificationSession` of stripe.ts. Inputs: the options the
caller passed (type, country code, the ids driving the optional regional
pre-checks), the result the security service returned for this call, the
`Date.now()` read inside `generateOID`, and the environment oracles. A
blocked security check throws; the regional pre-checks never throw; a
non-ok or thrown API fetch throws; the neural sync (when an endpoint is
configured) never throws; otherwise the created session is returned with
the generated OID. -/
def createVerificationSession (env : ClientEnv)
    (securityCheck : ValidationResult) (type : String)
    (countryCode : Option String) (nphiesId sudanNationalId : Option String)
    (timestamp : Nat) : Except String CreatedSession :=
  let oid := generateOID "verification" countryCode timestamp
  if !securityCheck.isValid then
    .error ("Security validation failed: "
      ++ securityCheck.blockedReason.getD "undefined")
  else
    let _saCheck :=
      if countryCode == some "SA" then
        some (validateNPHIESContext env.nphiesEndpoint nphiesId env.nphiesFetch)
      else none
    let _sdCheck :=
      if countryCode == some "SD" then
        some (validateSudanNIDContext env.sudanNidEndpoint sudanNationalId env.sudanFetch)
      else none
    match env.apiFetch with
    | .thrown msg => .error msg
    | .httpError statusText =>
      .error ("Failed to create verification session: " ++ statusText)
    | .ok sessionId =>
      let _sync :=
        if env.neuralSyncEndpoint.isSome then some (syncWithNeuralSystem env.neuralSync)
        else none
      .ok { id := sessionId, oid := oid }

/-! ## Concrete fixtures used by witnesses and counterexamples -/

/-- A browser environment with none of the headless/automation
indicators (one plugin, one language, ordinary user agent). -/
def cleanBrowser : BrowserEnv :=
  { webdriver := false, phantomJSInWindow := false, phantomKeyInWindow := false
    seleniumKeyInWindow := false, nightmareKeyInWindow := false
    pluginsLength := 1, languagesLength := 1, userAgentHeadlessChrome := false }

/-- A browser environment whose only indicator is `navigator.webdriver`. -/
def webdriverBrowser : BrowserEnv :=
  { cleanBrowser with webdriver := true }

/-- A browser environment with every indicator set. -/
def allIndicatorsBrowser : BrowserEnv :=
  { webdriver := true, phantomJSInWindow := true, phantomKeyInWindow := true
    seleniumKeyInWindow := true, nightmareKeyInWindow := true
    pluginsLength := 0, languagesLength := 0, userAgentHeadlessChrome := true }

/-- The constructor's configuration with advanced fraud detection
enabled (`maxVerificationAttempts` is always 3). -/
def fraudConfig : SecurityConfig :=
  { enableAdvancedFraudDetection := true, maxVerificationAttempts := 3 }

/-- A Saudi user context. -/
def saContext : UserContext := { countryCode := some "SA" }

/-- An endpoint environment in which every lookup finds an active row and
every external call succeeds. -/
def allOkEnv : EndpointEnv :=
  { oidRoot := "1.3.6.1.4.1.61026"
    facilityLookup := fun _ => .found
    wilayaLookup := fun _ => .found
    stripeOutcome := .ok "vs_test_123"
    dbInsertOk := true, kvPutOk := true, neuralPutOk := true }

/-- An endpoint environment whose regional registry queries throw
(network/timeout). -/
def registryDownEnv : EndpointEnv :=
  { allOkEnv with
    facilityLookup := fun _ => .failure
    wilayaLookup := fun _ => .failure }

/-- An endpoint environment whose regional registry queries find no
active row. -/
def unknownCodeEnv : EndpointEnv :=
  { allOkEnv with
    facilityLookup := fun _ => .notFound
    wilayaLookup := fun _ => .notFound }

/-- A Saudi document-verification request body with healthcare context. -/
def saBody : VerificationRequest :=
  { type := "document", return_url := "https://brainsait.com/done"
    metadata := none, country_code := some "SA"
    healthcare_context := some
      { nphiesId := some "nphies-1", facilityCode := some "KSA001", practitionerId := none }
    national_context := none }

/-- The same Saudi request with verification type `id_number`. -/
def saIdBody : VerificationRequest :=
  { saBody with type := "id_number" }

/-- A Sudan request body whose national context names wilaya `SD99`. -/
def sdBody : VerificationRequest :=
  { type := "document", return_url := "https://brainsait.com/done"
    metadata := none, country_code := some "SD"
    healthcare_context := none
    national_context := some
      { sudanNationalId := some "0123456789", ministryCode := none, wilayaCode := some "SD99" } }

/-- A client environment in which the API call succeeds and every
regional/neural endpoint is configured. -/
def clientOkEnv : ClientEnv :=
  { neuralSyncEndpoint := some "https://neural.brainsait.com/sync"
    nphiesEndpoint := some "https://nphies.example/api"
    sudanNidEndpoint := some "https://nid.sd.example/api"
    nphiesFetch := .ok, sudanFetch := .ok
    apiFetch := .ok "vs_test_123", neuralSync := .delivered }

/-- An allow result of the security service. -/
def allowResult : ValidationResult :=
  { isValid := true, riskScore := 30, blockedReason := none }

/-- Numeric value of a decimal digit character (left inverse of
`Nat.digitChar` on digits). -/
def digitVal (c : Char) : Nat := c.toNat - '0'.toNat

/-! ## Auxiliary lemmas: decimal rendering of `Nat` is injective -/

theorem digitVal_digitChar : ∀ d, d < 10 → digitVal (Nat.digitChar d) = d := by
  decide

theorem toDigitsCore_eq :
    ∀ (fuel n : Nat) (acc : List Char), n < fuel →
      Nat.toDigitsCore 10 fuel n acc =
        (if n = 0 then ['0']
         else ((Nat.digits 10 n).map Nat.digitChar).reverse) ++ acc := by
  intro fuel
  induction fuel with
  | zero => intro n acc h; omega
  | succ fuel ih =>
    intro n acc h
    by_cases h0 : n / 10 = 0
    · by_cases hn : n = 0
      · subst hn
        simp [Nat.toDigitsCore, Nat.digitChar]
      · have hlt : n < 10 := (Nat.div_eq_zero_iff (by norm_num)).mp h0
        rw [Nat.digits_def' (by norm_num : (1:Nat) < 10) (Nat.pos_of_ne_zero hn)]
        simp [Nat.toDigitsCore, h0, hn, Nat.mod_eq_of_lt hlt]
    · have hn : n ≠ 0 := by
        intro e; exact h0 (by simp [e])
      have hfuel : n / 10 < fuel := by
        have h1 : n / 10 < n := Nat.div_lt_self (Nat.pos_of_ne_zero hn) (by norm_num)
        omega
      have hrec : Nat.toDigitsCore 10 (fuel + 1) n acc =
          Nat.toDigitsCore 10 fuel (n / 10) (Nat.digitChar (n % 10) :: acc) := by
        simp [Nat.toDigitsCore, h0]
      rw [hrec, ih (n / 10) _ hfuel,
        Nat.digits_def' (by norm_num : (1:Nat) < 10) (Nat.pos_of_ne_zero hn)]
      simp [h0, hn]

theorem repr_data (n : Nat) :
    (Nat.repr n).data =
      if n = 0 then ['0'] else ((Nat.digits 10 n).map Nat.digitChar).reverse := by
  show (Nat.toDigits 10 n).asString.data = _
  rw [show Nat.toDigits 10 n = Nat.toDigitsCore 10 (n + 1) n [] from rfl,
    toDigitsCore_eq (n + 1) n [] (Nat.lt_succ_self n)]
  simp [List.asString]

theorem map_digitVal_digits (n : Nat) :
    ((Nat.digits 10 n).map Nat.digitChar).map digitVal = Nat.digits 10 n := by
  rw [List.map_map]
  have h : ∀ d ∈ Nat.digits 10 n, (digitVal ∘ Nat.digitChar) d = d := fun d hd =>
    digitVal_digitChar d (Nat.digits_lt_base (by norm_num) hd)
  calc ((Nat.digits 10 n).map (digitVal ∘ Nat.digitChar))
      = (Nat.digits 10 n).map id := List.map_congr_left h
    _ = Nat.digits 10 n := List.map_id _

theorem repr_inj {m n : Nat} (h : Nat.repr m = Nat.repr n) : m = n := by
  have hd : (Nat.repr m).data = (Nat.repr n).data := congrArg String.data h
  rw [repr_data, repr_data] at hd
  by_cases hm : m = 0 <;> by_cases hn : n = 0
  · exact hm.trans hn.symm
  · exfalso
    rw [if_pos hm, if_neg hn] at hd
    have h1 : (Nat.digits 10 n).map Nat.digitChar = ['0'] := by
      have := congrArg List.reverse hd
      simpa using this.symm
    have h2 : Nat.digits 10 n = [0] := by
      have := congrArg (List.map digitVal) h1
      rwa [map_digitVal_digits] at this
    have : n = 0 := by
      have h3 := Nat.ofDigits_digits 10 n
      rw [h2] at h3
      simpa [Nat.ofDigits] using h3.symm
    exact hn this
  · exfalso
    rw [if_neg hm, if_pos hn] at hd
    have h1 : (Nat.digits 10 m).map Nat.digitChar = ['0'] := by
      have := congrArg List.reverse hd
      simpa using this
    have h2 : Nat.digits 10 m = [0] := by
      have := congrArg (List.map digitVal) h1
      rwa [map_digitVal_digits] at this
    have : m = 0 := by
      have h3 := Nat.ofDigits_digits 10 m
      rw [h2] at h3
      simpa [Nat.ofDigits] using h3.symm
    exact hm this
  · rw [if_neg hm, if_neg hn] at hd
    have h1 : (Nat.digits 10 m).map Nat.digitChar = (Nat.digits 10 n).map Nat.digitChar :=
      List.reverse_injective hd
    have h2 : Nat.digits 10 m = Nat.digits 10 n := by
      have := congrArg (List.map digitVal) h1
      rwa [map_digitVal_digits, map_digitVal_digits] at this
    have h3 := congrArg (Nat.ofDigits 10) h2
    rwa [Nat.ofDigits_digits, Nat.ofDigits_digits] at h3

theorem countryOid_data_length (cc : Option String) :
    (countryOid cc).data.length = 3 := by
  unfold countryOid
  split
  · rfl
  · split <;> rfl

/-! ## Auxiliary lemmas: the fraud-check category and the endpoint trace -/

theorem performAdvancedFraudChecks_eq (b : BrowserEnv) (uc : UserContext)
    (m : SecurityMetrics) :
    performAdvancedFraudChecks b uc m =
      min ((if detectHeadlessBrowser b then 60 else 0) +
        (if detectAutomationTools b then 50 else 0)) 100 := by
  rcases uc with ⟨cc⟩
  cases cc <;>
    simp only [performAdvancedFraudChecks, detectLocationMismatch, detectVPNUsage,
      Bool.and_false, Bool.false_eq_true, if_false] <;>
    split <;> split <;> simp

theorem performAdvancedFraudChecks_le (b : BrowserEnv) (uc : UserContext)
    (m : SecurityMetrics) : performAdvancedFraudChecks b uc m ≤ 100 := by
  rw [performAdvancedFraudChecks_eq]
  exact Nat.min_le_right _ _

theorem performAdvancedFraudChecks_of_clean (b : BrowserEnv) (uc : UserContext)
    (m : SecurityMetrics) (h1 : detectHeadlessBrowser b = false)
    (h2 : detectAutomationTools b = false) :
    performAdvancedFraudChecks b uc m = 0 := by
  rw [performAdvancedFraudChecks_eq, h1, h2]
  simp

theorem onRequestPost_trace_cases (env : EndpointEnv) (body : VerificationRequest)
    (ts : Nat) :
    (onRequestPost env body ts).2 = [] ∨
    (onRequestPost env body ts).2 = [Ev.stripeCall] ∨
    (onRequestPost env body ts).2 = [Ev.stripeCall, Ev.dbInsert] ∨
    (onRequestPost env body ts).2 =
      [Ev.stripeCall, Ev.dbInsert, Ev.dbInsertSuccess, Ev.kvPut] ∨
    (onRequestPost env body ts).2 =
      [Ev.stripeCall, Ev.dbInsert, Ev.dbInsertSuccess, Ev.kvPut, Ev.neuralPut] := by
  unfold onRequestPost
  cases hsa : saGate env body with
  | error e => simp
  | ok b1 =>
    cases b1
    · simp
    · cases hsd : sdGate env body with
      | error e => simp
      | ok b2 =>
        cases b2
        · simp
        · cases hst : env.stripeOutcome with
          | thrown msg => simp
          | httpError st b => simp
          | ok sid =>
            by_cases hdb : env.dbInsertOk = true <;>
              by_cases hkv : env.kvPutOk = true <;>
              by_cases hmet : (metadataLookup body.metadata "neural_integration"
                == some "enabled") = true <;>
              by_cases hn : env.neuralPutOk = true <;>
              simp [hdb, hkv, hmet, hn]

/-! ## Claim theorems -/

/-- Claim C1 (code bug): on a first-attempt request with a fresh matching
device fingerprint and no automation indicators the computed risk score is
30, not 0 — the +30 burst penalty fires although there is no previous
attempt — and a follow-up attempt 9 seconds later also scores 30, so the
penalty is not applied "if and only if the time since the previous attempt
is less than 5 seconds": `lastAttemptTimestamp` is overwritten with
`currentTime` before the comparison, making the condition always true. -/
theorem firstAttempt_scores_thirty :
    (validateVerificationRequest fraudConfig cleanBrowser none
        "fp" "ip" "ua" 1000 saContext).1
      = { isValid := true, riskScore := 30, blockedReason := none }
    ∧ (validateVerificationRequest fraudConfig cleanBrowser
        (some (validateVerificationRequest fraudConfig cleanBrowser none
          "fp" "ip" "ua" 1000 saContext).2)
        "fp" "ip" "ua" 10000 saContext).1.riskScore = 30
    ∧ (validateVerificationRequest fraudConfig cleanBrowser none
        "fp" "ip" "ua" 1000 saContext).1.riskScore ≠ 0 := by
  decide

/-- Claim C2 counterexample: the same request submitted 4 times within 5
seconds with the same device fingerprint scores 30, 30, 30, 80 — the 4th
attempt scores 80 (not 100) and its blocked reason is "Suspicious activity
patterns", not "High fraud risk detected". -/
theorem fourthAttempt_not_maxScore :
    ((runValidationSequence fraudConfig cleanBrowser saContext "ip" "ua"
        [(0, "fp"), (1000, "fp"), (2000, "fp"), (3000, "fp")] none).1.map
      ValidationResult.riskScore = [30, 30, 30, 80])
    ∧ ((runValidationSequence fraudConfig cleanBrowser saContext "ip" "ua"
        [(0, "fp"), (1000, "fp"), (2000, "fp"), (3000, "fp")] none).1.getLast?
      = some { isValid := false, riskScore := 80,
               blockedReason := some "Suspicious activity patterns" })
    ∧ (80 : Nat) ≠ 100
    ∧ "Suspicious activity patterns" ≠ "High fraud risk detected" := by
  decide

/-- Claim C2 as amended: for any four submissions of the same request
within 5 seconds with the same device fingerprint (and no automation
indicators), the 4th call to `validateVerificationRequest` yields an
aggregate risk score of 80 (+50 over-max-attempts and +30 burst),
decision block, and blocked reason "Suspicious activity patterns". -/
theorem fourthAttempt_scores_eighty (adv : Bool) (b : BrowserEnv)
    (uc : UserContext) (ip ua fp : String) (t1 t2 t3 t4 : Nat)
    (hb1 : detectHeadlessBrowser b = false)
    (hb2 : detectAutomationTools b = false)
    (hwithin : t4 - t1 < 5000) :
    (runValidationSequence { enableAdvancedFraudDetection := adv, maxVerificationAttempts := 3 }
        b uc ip ua [(t1, fp), (t2, fp), (t3, fp), (t4, fp)] none).1.getLast?
      = some { isValid := false, riskScore := 80,
               blockedReason := some "Suspicious activity patterns" } := by
  have hfraud : ∀ m, performAdvancedFraudChecks b uc m = 0 := fun m =>
    performAdvancedFraudChecks_of_clean b uc m hb1 hb2
  simp [runValidationSequence, validateVerificationRequest, hfraud, getRiskReason]

/-- Witness for the amended C2 at a concrete input. -/
theorem fourthAttempt_scores_eighty_witness :
    (runValidationSequence { enableAdvancedFraudDetection := true, maxVerificationAttempts := 3 }
        cleanBrowser saContext "ip" "ua"
        [(0, "fp"), (1000, "fp"), (2000, "fp"), (3000, "fp")] none).1.getLast?
      = some { isValid := false, riskScore := 80,
               blockedReason := some "Suspicious activity patterns" } :=
  fourthAttempt_scores_eighty true cleanBrowser saContext "ip" "ua" "fp"
    0 1000 2000 3000 (by decide) (by decide) (by decide)

/-- Claim C4 counterexample: with three prior attempts, a mismatching
device fingerprint and every automation indicator set, the aggregate risk
score is 220, outside [0, 100]. -/
theorem riskScore_exceeds_100 :
    (validateVerificationRequest fraudConfig allIndicatorsBrowser
        (some { verificationAttempts := 3, lastAttemptTimestamp := 0
                suspiciousActivityScore := 0, deviceFingerprint := some "A"
                ipAddress := some "ip", userAgent := some "ua" })
        "B" "ip" "ua" 1000 saContext).1.riskScore = 220
    ∧ ¬ ((220 : Nat) ≤ 100) := by
  decide

/-- Claim C4 as amended: the aggregate risk score always lies in
[0, 220]; only the advanced-fraud category is clamped (at 100), the base
contributions +50/+30/+40 are not. -/
theorem riskScore_le_220 (cfg : SecurityConfig) (b : BrowserEnv)
    (stored : Option SecurityMetrics) (fp ip ua : String) (t : Nat)
    (uc : UserContext) :
    (validateVerificationRequest cfg b stored fp ip ua t uc).1.riskScore ≤ 220 := by
  simp only [validateVerificationRequest]
  repeat' split
  all_goals
    first
      | omega
      | exact le_trans
          (Nat.add_le_add_left (performAdvancedFraudChecks_le _ _ _) _)
          (by omega)

/-- Claim C5 counterexample: a headless-browser indicator alone
contributes +60 to the advanced fraud checks, not +50. -/
theorem headlessOnly_scores_sixty :
    performAdvancedFraudChecks webdriverBrowser saContext
        { verificationAttempts := 1, lastAttemptTimestamp := 0
          suspiciousActivityScore := 0, deviceFingerprint := some "fp"
          ipAddress := some "ip", userAgent := some "ua" } = 60
    ∧ (60 : Nat) ≠ 50 := by
  decide

/-- Claim C5 as amended: in the advanced fraud checks a headless-browser
indicator contributes +60, an automation-tooling signature +50, the
geo-mismatch and VPN detectors are stubs contributing 0, and the
category's aggregate is capped at +100. -/
theorem advancedFraud_weights (b : BrowserEnv) (uc : UserContext)
    (m : SecurityMetrics) :
    performAdvancedFraudChecks b uc m =
      min ((if detectHeadlessBrowser b then 60 else 0) +
        (if detectAutomationTools b then 50 else 0)) 100
    ∧ performAdvancedFraudChecks b uc m ≤ 100 :=
  ⟨performAdvancedFraudChecks_eq b uc m, performAdvancedFraudChecks_le b uc m⟩

/-- Claim C7 counterexample: two distinct create-session calls (different
request bodies) in the same millisecond with the same country code are
given the same sessionOID, so sessionOIDs are not unique per session. -/
theorem sessionOID_collision :
    saBody ≠ saIdBody
    ∧ (onRequestPost allOkEnv saBody 1000).1.brainsaitOid
        = (onRequestPost allOkEnv saIdBody 1000).1.brainsaitOid
    ∧ (onRequestPost allOkEnv saBody 1000).1.brainsaitOid
        = some "1.3.6.1.4.1.61026.1.682.1000" := by
  decide

/-- Claim C7 as amended: two generated sessionOIDs coincide exactly when
their country arcs and their creation timestamps coincide — the OID
encodes country and creation epoch, so uniqueness holds only per
(country, millisecond), not per call. -/
theorem sessionOID_eq_iff (root : String) (c1 c2 : Option String) (t1 t2 : Nat) :
    sessionOID root c1 t1 = sessionOID root c2 t2 ↔
      countryOid c1 = countryOid c2 ∧ t1 = t2 := by
  constructor
  · intro h
    have hd := congrArg String.data h
    simp only [sessionOID, String.data_append, List.append_assoc] at hd
    have h1 := List.append_cancel_left (List.append_cancel_left hd)
    obtain ⟨hc, hrest⟩ := List.append_inj h1
      ((countryOid_data_length c1).trans (countryOid_data_length c2).symm)
    have ht : (Nat.repr t1).data = (Nat.repr t2).data := List.append_cancel_left hrest
    exact ⟨String.ext hc, repr_inj (String.ext ht)⟩
  · rintro ⟨hc, ht⟩
    rw [sessionOID, sessionOID, hc, ht]

/-- Claim C3 counterexample: on a registry failure (thrown fetch), the
client's `validateNPHIESContext` returns normally with only a console
warning — validation passes silently, with no `valid:false` /
`registry_unavailable` result — while the server endpoint's registry
failure falls into the catch-all handler and aborts with a hard 500, not
a soft `regional_validation_degraded` flag. -/
theorem registryFailure_passes_silently :
    validateNPHIESContext (some "https://nphies.example/api") (some "nphies-1")
        (.thrown "network timeout")
      = { threw := false, warningLogged := true }
    ∧ (onRequestPost registryDownEnv saBody 1000).1 = internalErrorResponse
    ∧ (onRequestPost registryDownEnv saBody 1000).2 = [] := by
  decide

/-- Claim C3 as amended: when a regional registry call fails, the
client's pre-checks (`validateNPHIESContext`, `validateSudanNIDContext`)
swallow the error (log a warning, never throw, session creation proceeds
as on success), and in the server endpoint a failed facility or wilaya
lookup — for a supplied non-empty code, which is the only case in which
the query runs — propagates to the catch-all handler, returning HTTP 500
with no provider call; no path produces a `registry_unavailable` reason
or a `regional_validation_degraded` flag. -/
theorem registryFailure_behavior :
    (∀ (ep id msg : String),
      validateNPHIESContext (some ep) (some id) (.thrown msg)
        = { threw := false, warningLogged := true })
    ∧ (∀ (ep id msg : String),
      validateSudanNIDContext (some ep) (some id) (.thrown msg)
        = { threw := false, warningLogged := true })
    ∧ (∀ (env : EndpointEnv) (body : VerificationRequest) (ts : Nat)
        (hc : HealthcareContext) (f : String),
      body.country_code = some "SA" →
      body.healthcare_context = some hc →
      hc.facilityCode = some f →
      f ≠ "" →
      env.facilityLookup f = RegionalLookup.failure →
      (onRequestPost env body ts).1 = internalErrorResponse
        ∧ (onRequestPost env body ts).2 = [])
    ∧ (∀ (env : EndpointEnv) (body : VerificationRequest) (ts : Nat)
        (nc : NationalContext) (w : String),
      body.country_code = some "SD" →
      body.national_context = some nc →
      nc.wilayaCode = some w →
      w ≠ "" →
      env.wilayaLookup w = RegionalLookup.failure →
      (onRequestPost env body ts).1 = internalErrorResponse
        ∧ (onRequestPost env body ts).2 = []) := by
  refine ⟨fun ep id msg => rfl, fun ep id msg => rfl, ?_, ?_⟩
  · intro env body ts hc f h1 h2 h3 hf h4
    have hsa : saGate env body = .error "D1 query failed" := by
      simp [saGate, h1, h2, validateSaudiFacility, h3, hf, h4]
    simp [onRequestPost, hsa]
  · intro env body ts nc w h1 h2 h3 hw h4
    have hsa : saGate env body = .ok true := by
      simp [saGate, h1]
    have hsd : sdGate env body = .error "D1 query failed" := by
      simp [sdGate, h1, h2, validateSudanWilaya, h3, hw, h4]
    simp [onRequestPost, hsa, hsd]

/-- Witness for the amended C3 at concrete inputs. -/
theorem registryFailure_behavior_witness :
    validateNPHIESContext (some "https://nphies.example/api") (some "nphies-1")
        (.thrown "timeout") = { threw := false, warningLogged := true }
    ∧ validateSudanNIDContext (some "https://nid.sd.example/api") (some "0123456789")
        (.thrown "timeout") = { threw := false, warningLogged := true }
    ∧ ((onRequestPost registryDownEnv saBody 2000).1 = internalErrorResponse
        ∧ (onRequestPost registryDownEnv saBody 2000).2 = [])
    ∧ ((onRequestPost registryDownEnv sdBody 2000).1 = internalErrorResponse
        ∧ (onRequestPost registryDownEnv sdBody 2000).2 = []) :=
  ⟨registryFailure_behavior.1 "https://nphies.example/api" "nphies-1" "timeout",
   registryFailure_behavior.2.1 "https://nid.sd.example/api" "0123456789" "timeout",
   registryFailure_behavior.2.2.1 registryDownEnv saBody 2000 _ "KSA001"
     rfl rfl rfl (by decide) rfl,
   registryFailure_behavior.2.2.2 registryDownEnv sdBody 2000 _ "SD99"
     rfl rfl rfl (by decide) rfl⟩

/-- Claim C6: an SD request with an unknown/inactive wilaya code, and an
SA request with an unknown/inactive (or uncertified) facility code, are
rejected with HTTP 400 and an empty effect trace — no provider call, no
durable insert, no cache write. (The code must be non-empty: the
endpoint's falsy guard treats an absent or empty-string code as "no code
supplied" and skips the lookup.) -/
theorem regionalReject_no_provider_call :
    (∀ (env : EndpointEnv) (body : VerificationRequest) (ts : Nat)
        (nc : NationalContext) (w : String),
      body.country_code = some "SD" →
      body.national_context = some nc →
      nc.wilayaCode = some w →
      w ≠ "" →
      env.wilayaLookup w = RegionalLookup.notFound →
      (onRequestPost env body ts).1.status = 400
        ∧ (onRequestPost env body ts).2 = [])
    ∧ (∀ (env : EndpointEnv) (body : VerificationRequest) (ts : Nat)
        (hc : HealthcareContext) (f : String),
      body.country_code = some "SA" →
      body.healthcare_context = some hc →
      hc.facilityCode = some f →
      f ≠ "" →
      env.facilityLookup f = RegionalLookup.notFound →
      (onRequestPost env body ts).1.status = 400
        ∧ (onRequestPost env body ts).2 = []) := by
  constructor
  · intro env body ts nc w h1 h2 h3 hw h4
    have hsa : saGate env body = .ok true := by
      simp [saGate, h1]
    have hsd : sdGate env body = .ok false := by
      simp [sdGate, h1, h2, validateSudanWilaya, h3, hw, h4]
    simp [onRequestPost, hsa, hsd]
  · intro env body ts hc f h1 h2 h3 hf h4
    have hsa : saGate env body = .ok false := by
      simp [saGate, h1, h2, validateSaudiFacility, h3, hf, h4]
    simp [onRequestPost, hsa]

/-- Witness for C6 at concrete inputs (`SD99` unknown wilaya, `KSA001`
not active/certified). -/
theorem regionalReject_no_provider_call_witness :
    ((onRequestPost unknownCodeEnv sdBody 1000).1.status = 400
      ∧ (onRequestPost unknownCodeEnv sdBody 1000).2 = [])
    ∧ ((onRequestPost unknownCodeEnv saBody 1000).1.status = 400
      ∧ (onRequestPost unknownCodeEnv saBody 1000).2 = []) :=
  ⟨regionalReject_no_provider_call.1 unknownCodeEnv sdBody 1000 _ "SD99"
     rfl rfl rfl (by decide) rfl,
   regionalReject_no_provider_call.2 unknownCodeEnv saBody 1000 _ "KSA001"
     rfl rfl rfl (by decide) rfl⟩

/-- Claim C8: the risk scorer is deterministic — two calls of
`validateVerificationRequest` from the same recorded metrics state with
the same configuration, browser signals, fingerprint, clock read and
user context return the same result (hence the same aggregate risk score
and allow/block decision) and the same written-back metrics. -/
theorem riskScorer_deterministic
    (cfg cfg' : SecurityConfig) (b b' : BrowserEnv)
    (stored stored' : Option SecurityMetrics) (fp fp' ip ip' ua ua' : String)
    (t t' : Nat) (uc uc' : UserContext)
    (h1 : cfg = cfg') (h2 : b = b') (h3 : stored = stored') (h4 : fp = fp')
    (h5 : ip = ip') (h6 : ua = ua') (h7 : t = t') (h8 : uc = uc') :
    validateVerificationRequest cfg b stored fp ip ua t uc
      = validateVerificationRequest cfg' b' stored' fp' ip' ua' t' uc' := by
  subst h1 h2 h3 h4 h5 h6 h7 h8
  rfl

/-- Witness for C8 at a concrete input. -/
theorem riskScorer_deterministic_witness :
    validateVerificationRequest fraudConfig cleanBrowser none "fp" "ip" "ua" 1000 saContext
      = validateVerificationRequest fraudConfig cleanBrowser none "fp" "ip" "ua" 1000 saContext :=
  riskScorer_deterministic fraudConfig fraudConfig cleanBrowser cleanBrowser
    none none "fp" "fp" "ip" "ip" "ua" "ua" 1000 1000 saContext saContext
    rfl rfl rfl rfl rfl rfl rfl rfl

/-- Claim C9: in every execution of the session-creation endpoint, if the
fast-cache (SESSIONS KV) write appears in the effect trace, then a
successful durable (D1) insert appears strictly before it — the cache
never holds a session whose durable write did not complete. -/
theorem cacheWrite_after_durableWrite (env : EndpointEnv)
    (body : VerificationRequest) (ts : Nat)
    (h : Ev.kvPut ∈ (onRequestPost env body ts).2) :
    ∃ pre post, (onRequestPost env body ts).2 = pre ++ Ev.kvPut :: post
      ∧ Ev.dbInsertSuccess ∈ pre := by
  rcases onRequestPost_trace_cases env body ts with htr | htr | htr | htr | htr <;>
    rw [htr] at h ⊢
  · exact absurd h (by decide)
  · exact absurd h (by decide)
  · exact absurd h (by decide)
  · exact ⟨[Ev.stripeCall, Ev.dbInsert, Ev.dbInsertSuccess], [], rfl, by decide⟩
  · exact ⟨[Ev.stripeCall, Ev.dbInsert, Ev.dbInsertSuccess], [Ev.neuralPut], rfl,
      by decide⟩

/-- Witness for C9 at a concrete input. -/
theorem cacheWrite_after_durableWrite_witness :
    Ev.kvPut ∈ (onRequestPost allOkEnv saBody 1000).2
    ∧ ∃ pre post, (onRequestPost allOkEnv saBody 1000).2 = pre ++ Ev.kvPut :: post
        ∧ Ev.dbInsertSuccess ∈ pre :=
  ⟨by decide, cacheWrite_after_durableWrite allOkEnv saBody 1000 (by decide)⟩

/-- Claim C10: a neural-sync dispatch failure never blocks or fails the
session's own processing — when the API call succeeded and the security
check allowed the request, `createVerificationSession` returns the
created session with its OID even when the neural sync fetch fails, and
its result is identical to the one with a delivered sync. -/
theorem neuralSyncFailure_harmless (env : ClientEnv) (sec : ValidationResult)
    (type : String) (cc nid sid : Option String) (ts : Nat)
    (msg sessionId : String)
    (h1 : env.apiFetch = .ok sessionId) (h2 : sec.isValid = true) :
    createVerificationSession { env with neuralSync := .failed msg } sec type cc nid sid ts
      = .ok { id := sessionId, oid := generateOID "verification" cc ts }
    ∧ createVerificationSession { env with neuralSync := .failed msg } sec type cc nid sid ts
      = createVerificationSession { env with neuralSync := .delivered } sec type cc nid sid ts := by
  constructor <;> simp [createVerificationSession, h1, h2]

/-- Witness for C10 at a concrete input. -/
theorem neuralSyncFailure_harmless_witness :
    createVerificationSession { clientOkEnv with neuralSync := .failed "socket closed" }
        allowResult "document" (some "SA") (some "nphies-1") none 1000
      = .ok { id := "vs_test_123", oid := generateOID "verification" (some "SA") 1000 }
    ∧ createVerificationSession { clientOkEnv with neuralSync := .failed "socket closed" }
        allowResult "document" (some "SA") (some "nphies-1") none 1000
      = createVerificationSession { clientOkEnv with neuralSync := .delivered }
        allowResult "document" (some "SA") (some "nphies-1") none 1000 :=
  neuralSyncFailure_harmless clientOkEnv allowResult "document" (some "SA")
    (some "nphies-1") none 1000 "socket closed" "vs_test_123" rfl rfl

end BrainSAIT
